import Mathlib

/-!
Verification development for the gate-security face-recognition backend.
The Python sources embedded here are `app/services/faiss_store.py`,
`app/services/face_recognition.py`, `app/services/visitor_service.py`,
`app/services/watchlist_service.py` and `app/routers/gate.py`.

The embedding has three layers:
- a real-valued vector layer for the numeric content of `FaissStore`
  (normalization and inner-product scores), stated relationally over `Real`;
- a NaN-tracking float layer for the behaviour of `FaissStore.normalize`
  on the all-zero embedding, where IEEE division 0/0 yields NaN;
- a decision layer over `Rat` for the metadata store, threshold filtering,
  enrollment and the gate decision pipeline, with the external collaborators
  (DeepFace embedding extraction and the raw faiss nearest-neighbour reply)
  supplied as oracle inputs.
-/

namespace GuardAI

/-! ## Real-valued vector layer (faiss_store.py, numeric content) -/

/-- Sum of squares of a vector; the square of its L2 norm. -/
def sumSq (v : List ℝ) : ℝ := (v.map (fun x => x * x)).sum

/-- A vector has unit L2 norm. -/
def unitNorm (v : List ℝ) : Prop := Real.sqrt (sumSq v) = 1

/-- Relational model of `FaissStore.normalize` (faiss_store.py lines 38-41):
`vec / np.linalg.norm(vec)`, componentwise division by the L2 norm, with no
guard against a zero norm. -/
def normalizeSpec (v w : List ℝ) : Prop :=
  w = v.map (fun x => x / Real.sqrt (sumSq v))

/-- Inner product of two vectors, the faiss `IndexFlatIP` metric. -/
def dot (u v : List ℝ) : ℝ := (List.zipWith (fun a b => a * b) u v).sum

/-- The rows of the flat faiss index, in insertion order. -/
structure VecIndex where
  rows : List (List ℝ)

/-- Relational model of the numeric effect of `FaissStore.add_face`
(faiss_store.py lines 43-53): the embedding is normalized and the result is
appended as the next row of the flat index. -/
def VecIndex.addSpec (s : VecIndex) (emb : List ℝ) (t : VecIndex) : Prop :=
  ∃ w, normalizeSpec emb w ∧ t.rows = s.rows ++ [w]

/-- Relational model of the numeric effect of `FaissStore.search`
(faiss_store.py lines 55-60): the query is normalized and the index scores
every row by inner product with the normalized query. -/
def VecIndex.searchScoresSpec (s : VecIndex) (q : List ℝ) (scores : List ℝ) : Prop :=
  ∃ qn, normalizeSpec q qn ∧ scores = s.rows.map (fun r => dot r qn)

theorem sumSq_nonneg (v : List ℝ) : 0 ≤ sumSq v := by
  induction v with
  | nil => simp [sumSq]
  | cons x xs ih =>
    have hx := mul_self_nonneg x
    simp only [sumSq, List.map_cons, List.sum_cons] at *
    linarith

theorem sumSq_map_div (v : List ℝ) (c : ℝ) :
    sumSq (v.map (fun x => x / c)) = sumSq v / (c * c) := by
  induction v with
  | nil => simp [sumSq]
  | cons x xs ih =>
    simp only [sumSq, List.map_cons, List.sum_cons] at *
    rw [ih, div_mul_div_comm, div_add_div_same]

/-- Normalizing a vector of nonzero norm yields squared norm one. -/
theorem normalizeSpec_sumSq (v w : List ℝ) (hnz : sumSq v ≠ 0)
    (h : normalizeSpec v w) : sumSq w = 1 := by
  rw [h, sumSq_map_div, Real.mul_self_sqrt (sumSq_nonneg v)]
  exact div_self hnz

/-- Normalizing a vector of nonzero norm yields unit L2 norm. -/
theorem normalizeSpec_unitNorm (v w : List ℝ) (hnz : sumSq v ≠ 0)
    (h : normalizeSpec v w) : unitNorm w := by
  unfold unitNorm
  rw [normalizeSpec_sumSq v w hnz h, Real.sqrt_one]

/-! ## NaN-tracking float layer (faiss_store.py on degenerate input)

`FaissStore.normalize` runs on numpy float32 data. The layer below tracks the
IEEE special values that the real-valued layer cannot express: `nan`, `inf`
and `ninf` (negative infinity). Signed zero is not modelled; it is irrelevant
to the behaviour proved here. -/

inductive NFloat where
  | val : ℚ → NFloat
  | nan : NFloat
  | inf : NFloat
  | ninf : NFloat
  deriving DecidableEq

/-- IEEE-style multiplication on the tracked values. -/
def NFloat.mul : NFloat → NFloat → NFloat
  | .nan, _ => .nan
  | _, .nan => .nan
  | .val a, .val b => .val (a * b)
  | .inf, .inf => .inf
  | .inf, .ninf => .ninf
  | .ninf, .inf => .ninf
  | .ninf, .ninf => .inf
  | .inf, .val b => if b = 0 then .nan else if 0 < b then .inf else .ninf
  | .val a, .inf => if a = 0 then .nan else if 0 < a then .inf else .ninf
  | .ninf, .val b => if b = 0 then .nan else if 0 < b then .ninf else .inf
  | .val a, .ninf => if a = 0 then .nan else if 0 < a then .ninf else .inf

/-- IEEE-style addition on the tracked values. -/
def NFloat.add : NFloat → NFloat → NFloat
  | .nan, _ => .nan
  | _, .nan => .nan
  | .val a, .val b => .val (a + b)
  | .inf, .ninf => .nan
  | .ninf, .inf => .nan
  | .inf, _ => .inf
  | _, .inf => .inf
  | .ninf, _ => .ninf
  | _, .ninf => .ninf

/-- IEEE-style division on the tracked values: dividing zero by zero yields
NaN, which is the behaviour of `vec / np.linalg.norm(vec)` on the all-zero
embedding. -/
def NFloat.div : NFloat → NFloat → NFloat
  | .nan, _ => .nan
  | _, .nan => .nan
  | .val a, .val b =>
    if b = 0 then (if a = 0 then .nan else if 0 < a then .inf else .ninf)
    else .val (a / b)
  | .val _, .inf => .val 0
  | .val _, .ninf => .val 0
  | .inf, .val b => if 0 ≤ b then .inf else .ninf
  | .ninf, .val b => if 0 ≤ b then .ninf else .inf
  | .inf, .inf => .nan
  | .inf, .ninf => .nan
  | .ninf, .inf => .nan
  | .ninf, .ninf => .nan

/-- Float-level model of `FaissStore.normalize` (faiss_store.py lines 38-41).
`np.linalg.norm` is an external numpy call, supplied as `normOp`; IEEE
arithmetic guarantees that the norm of an all-zero vector is exactly zero. -/
def normalizeF (normOp : List NFloat → NFloat) (v : List NFloat) : List NFloat :=
  v.map (fun x => NFloat.div x (normOp v))

/-- The rows of the flat faiss index at float level. -/
structure VecIndexF where
  rows : List (List NFloat)
  deriving DecidableEq

/-- Float-level model of the numeric effect of `FaissStore.add_face`:
the normalized embedding is appended as the next row. -/
def VecIndexF.addFaceF (normOp : List NFloat → NFloat) (s : VecIndexF)
    (emb : List NFloat) : VecIndexF :=
  ⟨s.rows ++ [normalizeF normOp emb]⟩

/-- Inner product at float level, the score the flat index computes. -/
def dotF (u v : List NFloat) : NFloat :=
  (List.zipWith NFloat.mul u v).foldr NFloat.add (NFloat.val 0)

/-- Float-level model of the scores computed by `FaissStore.search`: every
row is scored by inner product with the normalized query. -/
def VecIndexF.searchScoresF (normOp : List NFloat → NFloat) (s : VecIndexF)
    (q : List NFloat) : List NFloat :=
  s.rows.map (fun r => dotF (normalizeF normOp q) r)

theorem NFloat.mul_nan_right (x : NFloat) : NFloat.mul x .nan = .nan := by
  cases x <;> rfl

theorem NFloat.add_nan_left (y : NFloat) : NFloat.add .nan y = .nan := by
  cases y <;> rfl

/-- The inner product of any vector with an all-NaN row of the same positive
length is NaN. -/
theorem dotF_replicate_nan (u : List NFloat) (hu : u ≠ []) :
    dotF u (List.replicate u.length NFloat.nan) = NFloat.nan := by
  cases u with
  | nil => exact absurd rfl hu
  | cons x xs =>
    simp only [dotF, List.length_cons, List.replicate_succ, List.zipWith_cons_cons,
      List.foldr_cons, NFloat.mul_nan_right, NFloat.add_nan_left]

/-! ## Decision layer: the FAISS store with metadata (faiss_store.py)

The rows of metadata mirror the relevant keys of the Python metadata dicts;
an `Option` field set to `none` models a key whose lookup yields no value.
Display-only keys (image paths, creation timestamp) are elided. -/

structure FaceMeta where
  face_id : Option String
  person_id : Option String
  person_name : Option String
  person_type : Option String
  active : Option Bool
  deriving DecidableEq

/-- The empty metadata dict, attached when a row id has no metadata entry. -/
def FaceMeta.empty : FaceMeta := ⟨none, none, none, none, none⟩

/-- `FaissStore`: the flat faiss index is its row count (`index.ntotal`;
the numeric rows live in the vector layers above) plus the insertion-ordered
metadata dict keyed by the stringified row id. -/
structure Store where
  ntotal : Nat
  metadata : List (Nat × FaceMeta)
  deriving DecidableEq

/-- Python dict assignment `d[k] = v`: overwrite in place if the key exists,
otherwise append preserving insertion order. -/
def dictSet (l : List (Nat × FaceMeta)) (k : Nat) (v : FaceMeta) :
    List (Nat × FaceMeta) :=
  if l.any (fun p => p.1 == k) then
    l.map (fun p => if p.1 == k then (k, v) else p)
  else l ++ [(k, v)]

/-- Python `self.metadata.get(str(idx))` with an `Int` row id from faiss. -/
def dictGet (l : List (Nat × FaceMeta)) (k : Int) : Option FaceMeta :=
  (l.find? (fun p => (p.1 : Int) == k)).map (fun p => p.2)

/-- `FaissStore.add_face` (faiss_store.py lines 43-53): one row is appended to
the index (numeric content in the vector layers), the new row id is the old
`ntotal`, and the metadata dict gains `{"face_id": face_id, **meta}` under
that id. The explicit `face_id` key is overridden by one already in `meta`. -/
def Store.addFace (s : Store) (fid : String) (meta : FaceMeta) : Store :=
  let stored := { meta with face_id := some (meta.face_id.getD fid) }
  { ntotal := s.ntotal + 1
    metadata := dictSet s.metadata s.ntotal stored }

/-- One search result: the faiss score merged with the metadata dict of the
returned row (`{"score": ..., **self.metadata.get(str(idx), {})}`). -/
structure Hit where
  score : ℚ
  meta : FaceMeta
  deriving DecidableEq

/-- `FaissStore.search` (faiss_store.py lines 55-70). The raw `(score, id)`
rows produced by the external `index.search` call are the oracle input
`reply`; the repository code returns an empty list on an empty index, skips
the padding id -1, and attaches each row id its metadata entry (the empty
dict when the id has none). -/
def Store.search (s : Store) (reply : List (ℚ × Int)) : List Hit :=
  if s.ntotal == 0 then []
  else (reply.filter (fun p => p.2 != -1)).map
    (fun p => { score := p.1, meta := (dictGet s.metadata p.2).getD FaceMeta.empty })

/-- `FaissStore.stats` output (faiss_store.py lines 72-83). -/
structure StatsOut where
  total_vectors : Nat
  active_faces : Nat
  by_type : List (String × Nat)
  deriving DecidableEq

/-- `by_type[t] = by_type.get(t, 0) + 1`, preserving dict insertion order. -/
def bumpCount (l : List (String × Nat)) (t : String) : List (String × Nat) :=
  if l.any (fun p => p.1 == t) then
    l.map (fun p => if p.1 == t then (p.1, p.2 + 1) else p)
  else l ++ [(t, 1)]

/-- `FaissStore.stats` (faiss_store.py lines 72-83): `total_vectors` is
`index.ntotal`, `active_faces` is `len(self.metadata)`, and `by_type` counts
every metadata entry under `meta.get("person_type", "unknown")`. -/
def Store.stats (s : Store) : StatsOut :=
  { total_vectors := s.ntotal
    active_faces := s.metadata.length
    by_type := s.metadata.foldl
      (fun acc p => bumpCount acc (p.2.person_type.getD "unknown")) [] }

/-! ## Decision layer: FaceRecognitionService (face_recognition.py) -/

/-- The three per-population thresholds, read once at service start
(face_recognition.py lines 71-73). -/
structure Config where
  watchlist_threshold : ℚ
  visitor_threshold : ℚ
  resident_threshold : ℚ
  deriving DecidableEq

/-- `FaceRecognitionService._get_threshold_for_type` (lines 156-163):
unknown person types fall back to the visitor threshold. -/
def getThresholdForType (cfg : Config) (t : String) : ℚ :=
  if t == "watchlist" then cfg.watchlist_threshold
  else if t == "visitor" then cfg.visitor_threshold
  else if t == "resident" then cfg.resident_threshold
  else cfg.visitor_threshold

/-- Outcome of the external DeepFace pipeline run by `search_face` before the
index is queried: cropping can find no face, or the represent call can return
no embedding; otherwise an embedding is produced and the faiss reply oracle
carries its scores. -/
inductive EmbedOutcome where
  | noFace
  | noEmbedding
  | ok
  deriving DecidableEq

/-- The dict returned by `FaceRecognitionService.search_face`, with one
`Option` field per key that is present only on some return paths. The
`confidence` key that line 453 copies onto the best match equals its score. -/
structure SearchResult where
  success : Bool
  error : Option String := none
  matches_list : List Hit := []
  best_match : Option Hit := none
  match_found : Bool := false
  confidence : Option ℚ := none
  threshold : Option ℚ := none
  best_score : Option ℚ := none
  deriving DecidableEq

/-- Python `if person_types:`, false for both `None` and the empty list. -/
def typesTruthy : Option (List String) → Bool
  | none => false
  | some l => !l.isEmpty

/-- The type filter of `search_face` (line 417): keep results whose
`person_type` value lies in `person_types`; a missing value never matches. -/
def typeFilter (pts : Option (List String)) (l : List Hit) : List Hit :=
  if typesTruthy pts then
    l.filter (fun r => match r.meta.person_type with
      | some t => (pts.getD []).contains t
      | none => false)
  else l

/-- The filters of `search_face` applied to the raw index results: the type
filter (line 417) then the active filter `r.get("active", True)` (line 421). -/
def candidateResults (s : Store) (reply : List (ℚ × Int))
    (pts : Option (List String)) : List Hit :=
  (typeFilter pts (s.search reply)).filter (fun r => r.meta.active.getD true)

/-- Python `max(valid_matches, key=lambda x: x["score"])`: the first element
of maximal score. -/
def maxByScore : List Hit → Option Hit
  | [] => none
  | h :: t => some (t.foldl (fun acc x => if acc.score < x.score then x else acc) h)

/-- Python `max(r.get("score", 0) for r in results) if results else 0`. -/
def maxScore : List Hit → ℚ
  | [] => 0
  | h :: t => t.foldl (fun acc x => if acc < x.score then x.score else acc) h.score

/-- Threshold resolution of `search_face` (face_recognition.py lines
426-431): an explicit threshold wins; otherwise the first requested person
type picks its configured threshold; otherwise the visitor threshold. -/
def resolveThreshold (cfg : Config) (person_types : Option (List String))
    (threshold : Option ℚ) : ℚ :=
  match threshold with
  | some t => t
  | none =>
    if typesTruthy person_types then
      getThresholdForType cfg ((person_types.getD []).headD "")
    else cfg.visitor_threshold

/-- `FaceRecognitionService.search_face` (face_recognition.py lines 363-472).
The failure of the DeepFace preprocessing arrives as `embed`; on success the
index is searched (raw reply in `reply`), the type and active filters run,
the threshold defaults per person type, sub-threshold results are dropped,
and the best survivor is returned with `confidence` set to its score.
`top_k` only shapes the external reply and is unused by the repository
logic itself. -/
def searchFace (cfg : Config) (s : Store) (embed : EmbedOutcome)
    (reply : List (ℚ × Int)) (person_types : Option (List String))
    (top_k : Nat) (threshold : Option ℚ) : SearchResult :=
  match embed with
  | .noFace => { success := false, error := some "No face detected" }
  | .noEmbedding => { success := false, error := some "Failed to extract embedding" }
  | .ok =>
    let results := candidateResults s reply person_types
    if results.isEmpty then
      { success := true, matches_list := [], match_found := false }
    else
      let θ := resolveThreshold cfg person_types threshold
      let valid := results.filter (fun r => decide (θ ≤ r.score))
      if valid.isEmpty then
        { success := true, matches_list := results, match_found := false,
          threshold := some θ, best_score := some (maxScore results) }
      else
        { success := true, matches_list := valid, best_match := maxByScore valid,
          match_found := true, confidence := (maxByScore valid).map Hit.score,
          threshold := some θ }

/-- The dict returned by `FaceRecognitionService.search_watchlist`. -/
structure WatchlistResult where
  watchlist_match : Bool
  best_match : Option Hit := none
  alert_person_id : Option String := none
  confidence : Option ℚ := none
  threshold : Option ℚ := none
  best_score : Option ℚ := none
  error : Option String := none
  deriving DecidableEq

/-- `FaceRecognitionService.search_watchlist` (face_recognition.py lines
611-660): `search_face` restricted to the watchlist population with
`top_k = 3` under the watchlist threshold. -/
def searchWatchlist (cfg : Config) (s : Store) (embed : EmbedOutcome)
    (reply : List (ℚ × Int)) (threshold : Option ℚ) : WatchlistResult :=
  let θ := threshold.getD cfg.watchlist_threshold
  let r := searchFace cfg s embed reply (some ["watchlist"]) 3 (some θ)
  if !r.success then
    { watchlist_match := false, error := r.error }
  else if !r.match_found then
    { watchlist_match := false, threshold := some θ,
      best_score := some (r.best_score.getD 0) }
  else
    match r.best_match with
    | some b =>
      { watchlist_match := true, best_match := some b,
        alert_person_id := b.meta.person_id, confidence := some b.score,
        threshold := some θ }
    | none =>
      { watchlist_match := true, best_match := none, confidence := some 0,
        threshold := some θ }

/-- `FaceRecognitionService.delete_face` inner loop (face_recognition.py
lines 548-553): walk the metadata dict in insertion order and flip
`meta["active"] = False` on the first entry whose `face_id` matches. -/
def deactivateFirst (l : List (Nat × FaceMeta)) (fid : String) :
    Option (List (Nat × FaceMeta)) :=
  match l with
  | [] => none
  | (k, m) :: t =>
    if m.face_id == some fid then some ((k, { m with active := some false }) :: t)
    else (deactivateFirst t fid).map (fun t2 => (k, m) :: t2)

/-- `FaceRecognitionService.delete_face` (face_recognition.py lines 543-560):
logical deletion only; returns whether a record was found. The flat index
rows are untouched. -/
def deleteFace (s : Store) (fid : String) : Bool × Store :=
  match deactivateFirst s.metadata fid with
  | some l2 => (true, { s with metadata := l2 })
  | none => (false, s)

/-- `FaceRecognitionService.get_stats` (face_recognition.py lines 566-580):
republishes the store stats, renaming `active_faces` to `total_faces`. -/
structure ServiceStats where
  total_faces : Nat
  total_vectors : Nat
  by_type : List (String × Nat)
  deriving DecidableEq

def getStats (s : Store) : ServiceStats :=
  let st := s.stats
  { total_faces := st.active_faces
    total_vectors := st.total_vectors
    by_type := st.by_type }

/-! ## Relational store (models/visitor.py, models/watchlist.py,
models/entry_log.py). Timestamps are integers; display-only columns are
elided. -/

inductive VStatus where
  | pending | approved | checked_in | checked_out | expired | rejected | cancelled
  deriving DecidableEq

structure Visitor where
  id : Nat
  full_name : String
  face_id : Option String := none
  face_image_url : Option String := none
  status : VStatus := .approved
  approval_code : Option String := none
  valid_from : ℤ
  valid_until : ℤ
  checked_in_at : Option ℤ := none
  deriving DecidableEq

structure WatchlistPerson where
  id : Nat
  full_name : String
  face_id : Option String := none
  category : String
  severity : String := "medium"
  reason : String
  is_active : Bool := true
  deriving DecidableEq

inductive EntryStatus where
  | allowed | denied | manual_verification | watchlist_alert
  deriving DecidableEq

inductive EntryType where
  | entry | exit
  deriving DecidableEq

inductive VMethod where
  | face_recognition | approval_code | manual | resident_face
  deriving DecidableEq

structure EntryLog where
  id : Nat
  entry_type : EntryType := .entry
  gate_id : String := "MAIN_GATE"
  visitor_id : Option Nat := none
  resident_id : Option Nat := none
  person_name : Option String := none
  verification_method : VMethod
  face_match_confidence : Option ℚ := none
  status : EntryStatus
  denial_reason : Option String := none
  verified_by : Nat
  watchlist_match_id : Option Nat := none
  watchlist_confidence : Option ℚ := none
  notes : Option String := none
  is_flagged : Bool := false
  deriving DecidableEq

structure Alert where
  id : Nat
  watchlist_person_id : Nat
  entry_log_id : Option Nat := none
  gate_id : String
  confidence_score : ℚ
  severity : String
  is_acknowledged : Bool := false
  is_resolved : Bool := false
  deriving DecidableEq

/-- The relational tables the gate endpoint touches. Autoincrement ids are
modelled as the current table length. -/
structure DB where
  visitors : List Visitor
  watchlist : List WatchlistPerson
  entry_logs : List EntryLog
  alerts : List Alert
  deriving DecidableEq

/-! ## visitor_service.py -/

/-- `VisitorService.validate_visitor_entry` (visitor_service.py lines
240-275): status checks in source order, then the validity window; when past
`valid_until` the visitor is opportunistically transitioned to Expired, so
the (possibly updated) visitor table is returned as well. Interpolated
values in the returned messages are elided. -/
def validateVisitorEntry (visitors : List Visitor) (vid : Nat) (now : ℤ) :
    (Bool × String) × List Visitor :=
  match visitors.find? (fun v => v.id == vid) with
  | none => ((false, "Visitor not found"), visitors)
  | some v =>
    if v.status == .cancelled then
      ((false, "Visitor approval has been cancelled"), visitors)
    else if v.status == .expired then
      ((false, "Visitor approval has expired"), visitors)
    else if v.status == .rejected then
      ((false, "Visitor was previously rejected"), visitors)
    else if v.status == .checked_out then
      ((false, "Visitor has already checked out"), visitors)
    else if now < v.valid_from then
      ((false, "Approval not yet valid"), visitors)
    else if v.valid_until < now then
      ((false, "Visitor approval has expired"),
        visitors.map (fun w => if w.id == vid then { w with status := .expired } else w))
    else ((true, "Valid"), visitors)

/-- `VisitorService.check_in_visitor` (visitor_service.py lines 180-192). -/
def checkInVisitor (visitors : List Visitor) (vid : Nat) (now : ℤ) : List Visitor :=
  visitors.map (fun w =>
    if w.id == vid then { w with status := .checked_in, checked_in_at := some now }
    else w)

/-! ## watchlist_service.py -/

/-- `WatchlistService.create_alert` (watchlist_service.py lines 194-231):
the alert inherits the severity of the referenced watchlist person (high
when the person row is missing) and is committed immediately. -/
def createAlert (db : DB) (wpid : Nat) (conf : ℚ) (gate_id : String)
    (entry_log_id : Option Nat) : Alert × DB :=
  let sev := match db.watchlist.find? (fun p => p.id == wpid) with
    | some p => p.severity
    | none => "high"
  let alert : Alert :=
    { id := db.alerts.length, watchlist_person_id := wpid,
      entry_log_id := entry_log_id, gate_id := gate_id,
      confidence_score := conf, severity := sev }
  (alert, { db with alerts := db.alerts ++ [alert] })

/-! ## Enrollment (face_recognition.py index_face, visitor_service.py
create_visitor) -/

/-- Outcome of the external image/DeepFace steps inside `index_face`:
the detector can raise (caught by the enclosing handler), return no face,
the crop can fail, the represent call can return nothing, or an embedding
for `nFaces` detected faces is produced. -/
inductive ExtractOutcome where
  | detectError (msg : String)
  | noFaces
  | cropFail
  | embedFail
  | ok (nFaces : Nat)
  deriving DecidableEq

/-- The dict returned by `FaceRecognitionService.index_face`. -/
structure IndexFaceResult where
  success : Bool
  error : Option String := none
  face_id : Option String := none
  image_path : Option String := none
  faces_detected : Option Nat := none
  deriving DecidableEq

/-- `FaceRecognitionService.index_face` (face_recognition.py lines 257-357).
An unknown person type raises `ValueError("Invalid person_type")`, which the
enclosing handler converts to an unsuccessful result before anything reaches
the index; the remaining failure modes mirror the source order. On success
the store gains one row whose metadata marks the face active. `uuidHex` is
the random part of the minted face id. -/
def indexFace (s : Store) (uuidHex : String) (person_id : String)
    (person_type : String) (person_name : Option String) (x : ExtractOutcome) :
    IndexFaceResult × Store :=
  if !((["visitor", "resident", "watchlist"] : List String).contains person_type) then
    ({ success := false, error := some "Indexing failed: Invalid person_type" }, s)
  else
    let fid := person_type ++ "_" ++ uuidHex
    let image_path := "./face_data/images/" ++ person_type ++ "s/" ++ fid ++ ".jpg"
    match x with
    | .detectError msg =>
      ({ success := false, error := some ("Indexing failed: " ++ msg) }, s)
    | .noFaces => ({ success := false, error := some "No face detected" }, s)
    | .cropFail => ({ success := false, error := some "Failed to crop face" }, s)
    | .embedFail =>
      ({ success := false, error := some "Failed to extract embedding" }, s)
    | .ok nFaces =>
      let meta : FaceMeta :=
        { face_id := some fid, person_id := some person_id,
          person_name := person_name, person_type := some person_type,
          active := some true }
      ({ success := true, face_id := some fid, image_path := some image_path,
         faces_detected := some nFaces }, s.addFace fid meta)

/-- The relevant inputs of `VisitorCreate` (schemas) for enrollment. -/
structure VisitorCreate where
  full_name : String
  has_face_image : Bool
  valid_from : ℤ
  valid_until : ℤ
  deriving DecidableEq

/-- The details dict returned by `VisitorService.create_visitor`; the
`face_details` dict is empty (`none`) when no face image was supplied. -/
structure CreateDetails where
  success : Bool
  approval_code : Option String := none
  face_indexed : Bool := false
  face_details : Option IndexFaceResult := none
  error : Option String := none
  deriving DecidableEq

/-- `VisitorService.create_visitor` (visitor_service.py lines 25-98).
The approval-code uniqueness loop is abstracted: `code` is the fresh code it
settled on. A supplied face image is indexed first; an indexing failure is
kept in `face_details` and the visitor row is created regardless, without a
face reference. The new row id is the current table length. -/
def createVisitor (visitors : List Visitor) (store : Store) (vd : VisitorCreate)
    (code : String) (uuidHex : String) (x : ExtractOutcome) :
    (Option Visitor × CreateDetails) × List Visitor × Store :=
  let res := indexFace store uuidHex ("visitor_" ++ code) "visitor"
    (some vd.full_name) x
  let indexed := vd.has_face_image && res.1.success
  let face_id := if indexed then res.1.face_id else none
  let face_image_url := if indexed then res.1.image_path else none
  let face_details := if vd.has_face_image then some res.1 else none
  let store1 := if vd.has_face_image then res.2 else store
  let visitor : Visitor :=
    { id := visitors.length, full_name := vd.full_name,
      face_id := face_id, face_image_url := face_image_url,
      status := .approved, approval_code := some code,
      valid_from := vd.valid_from, valid_until := vd.valid_until }
  ((some visitor,
    { success := true, approval_code := some code,
      face_indexed := face_id.isSome, face_details := face_details }),
   visitors ++ [visitor], store1)

/-! ## Gate endpoint (routers/gate.py verify_entry) -/

/-- The `watchlist_alert` payload of the response (gate.py lines 91-98). -/
structure WatchlistAlertData where
  alert_id : Nat
  person_name : String
  category : String
  severity : String
  reason : String
  confidence : ℚ
  deriving DecidableEq

/-- `GateVerificationResponse`; display message strings are elided. -/
structure GateResponse where
  status : EntryStatus
  visitor_name : Option String := none
  visitor_id : Option Nat := none
  confidence : Option ℚ := none
  denial_reason : Option String := none
  entry_log_id : Option Nat := none
  watchlist_alert : Option WatchlistAlertData := none
  requires_manual_check : Bool := false
  deriving DecidableEq

/-- The two external pipeline runs of one `verify_entry` request: the
DeepFace outcome and raw faiss reply of the watchlist search (step 1) and of
the visitor/resident search (step 2). Both run on the same captured image
but are independent calls in the source. -/
structure GateOracle where
  embedW : EmbedOutcome
  replyW : List (ℚ × Int)
  embedV : EmbedOutcome
  replyV : List (ℚ × Int)
  deriving DecidableEq

/-- The final block of `verify_entry` (gate.py lines 297-321): nothing
qualified, so a manual-verification entry log is written. The best score and
threshold interpolated into the denial reason are elided from the string. -/
def gateNoMatch (db : DB) (gate_id : String) (verified_by : Nat) :
    GateResponse × DB :=
  let logId := db.entry_logs.length
  let log : EntryLog :=
    { id := logId, gate_id := gate_id, status := .manual_verification,
      verification_method := .manual,
      denial_reason := some "No matching face found", verified_by := verified_by,
      notes := some "Person not recognized - manual verification required" }
  ({ status := .manual_verification, entry_log_id := some logId,
     requires_manual_check := true },
   { db with entry_logs := db.entry_logs ++ [log] })

/-- Steps 2-4 of `verify_entry` (gate.py lines 109-321): the
visitor/resident search and everything after it. Reached either after a
watchlist miss or after a watchlist face match whose person row is absent. -/
def verifyEntryIdentity (cfg : Config) (store : Store) (db : DB)
    (gate_id : String) (verified_by : Nat) (now : ℤ)
    (embed : EmbedOutcome) (reply : List (ℚ × Int)) : GateResponse × DB :=
  let sres := searchFace cfg store embed reply (some ["visitor", "resident"]) 5 none
  if !sres.success then
    let logId := db.entry_logs.length
    let log : EntryLog :=
      { id := logId, gate_id := gate_id, status := .manual_verification,
        verification_method := .manual,
        denial_reason := some (sres.error.getD "Face not detected"),
        verified_by := verified_by, notes := some "Face detection failed" }
    ({ status := .manual_verification, entry_log_id := some logId,
       requires_manual_check := true },
     { db with entry_logs := db.entry_logs ++ [log] })
  else
    match sres.match_found, sres.best_match with
    | true, some m =>
      let confidence := m.score
      let fid := m.meta.face_id
      let person_name := m.meta.person_name.getD "Unknown"
      if m.meta.person_type == some "visitor" then
        -- lookup by face id, then the fallback lookup by name (lines 152-169)
        let visitor :=
          match db.visitors.find? (fun v => v.face_id == fid) with
          | some v => some v
          | none =>
            if person_name == "" then none
            else db.visitors.find?
              (fun v => v.full_name == person_name && v.face_id.isSome)
        match visitor with
        | some v =>
          let vres := validateVisitorEntry db.visitors v.id now
          let db1 := { db with visitors := vres.2 }
          if vres.1.1 then
            let logId := db1.entry_logs.length
            let log : EntryLog :=
              { id := logId, gate_id := gate_id, visitor_id := some v.id,
                person_name := some v.full_name, status := .allowed,
                verification_method := .face_recognition,
                face_match_confidence := some confidence,
                verified_by := verified_by }
            ({ status := .allowed, visitor_name := some v.full_name,
               visitor_id := some v.id, confidence := some confidence,
               entry_log_id := some logId },
             { db1 with visitors := checkInVisitor db1.visitors v.id now,
                        entry_logs := db1.entry_logs ++ [log] })
          else
            let logId := db1.entry_logs.length
            let log : EntryLog :=
              { id := logId, gate_id := gate_id, visitor_id := some v.id,
                person_name := some v.full_name, status := .denied,
                verification_method := .face_recognition,
                face_match_confidence := some confidence,
                denial_reason := some vres.1.2, verified_by := verified_by }
            ({ status := .denied, visitor_name := some v.full_name,
               visitor_id := some v.id, confidence := some confidence,
               denial_reason := some vres.1.2, entry_log_id := some logId },
             { db1 with entry_logs := db1.entry_logs ++ [log] })
        | none =>
          -- face matched but no visitor row (gate.py lines 231-259)
          let logId := db.entry_logs.length
          let log : EntryLog :=
            { id := logId, gate_id := gate_id, person_name := some person_name,
              status := .manual_verification,
              verification_method := .face_recognition,
              face_match_confidence := some confidence, verified_by := verified_by,
              notes := some "Face recognized but visitor record not found" }
          ({ status := .manual_verification, visitor_name := some person_name,
             confidence := some confidence, entry_log_id := some logId,
             requires_manual_check := true },
           { db with entry_logs := db.entry_logs ++ [log] })
      else if m.meta.person_type == some "resident" then
        -- resident entry, always allowed (gate.py lines 261-295)
        let rname := m.meta.person_name.getD "Resident"
        let resident_id := (m.meta.person_id.getD "").toNat?
        let logId := db.entry_logs.length
        let log : EntryLog :=
          { id := logId, gate_id := gate_id, resident_id := resident_id,
            person_name := some rname, status := .allowed,
            verification_method := .face_recognition,
            face_match_confidence := some confidence, verified_by := verified_by }
        ({ status := .allowed, visitor_name := some rname,
           confidence := some confidence, entry_log_id := some logId },
         { db with entry_logs := db.entry_logs ++ [log] })
      else gateNoMatch db gate_id verified_by
    | _, _ => gateNoMatch db gate_id verified_by

/-- `verify_entry` (gate.py lines 22-321). Step 1 searches the watchlist; a
face match whose active watchlist person row exists produces the alert, the
audit record and the WatchlistAlert response, and preempts everything else.
Otherwise control falls through to the visitor/resident identity check. -/
def verifyEntry (cfg : Config) (store : Store) (db : DB) (gate_id : String)
    (verified_by : Nat) (now : ℤ) (o : GateOracle) : GateResponse × DB :=
  let wres := searchWatchlist cfg store o.embedW o.replyW none
  match wres.watchlist_match, wres.best_match with
  | true, some m =>
    let confidence := m.score
    let fid := m.meta.face_id
    match db.watchlist.find? (fun p => p.face_id == fid && p.is_active) with
    | some person =>
      let step1 := createAlert db person.id confidence gate_id none
      let db1 := step1.2
      let logId := db1.entry_logs.length
      let log : EntryLog :=
        { id := logId, gate_id := gate_id, person_name := some person.full_name,
          status := .watchlist_alert, verification_method := .face_recognition,
          face_match_confidence := some confidence, verified_by := verified_by,
          watchlist_match_id := some person.id,
          watchlist_confidence := some confidence, is_flagged := true,
          notes := some ("WATCHLIST MATCH: " ++ person.category ++ " - "
            ++ person.reason) }
      let db2 := { db1 with entry_logs := db1.entry_logs ++ [log] }
      let db3 := { db2 with alerts := db2.alerts.map (fun a =>
        if a.id == step1.1.id then { a with entry_log_id := some logId } else a) }
      ({ status := .watchlist_alert, confidence := some confidence,
         entry_log_id := some logId,
         watchlist_alert := some
           { alert_id := step1.1.id, person_name := person.full_name,
             category := person.category, severity := person.severity,
             reason := person.reason, confidence := confidence },
         requires_manual_check := true }, db3)
    | none =>
      verifyEntryIdentity cfg store db gate_id verified_by now o.embedV o.replyV
  | _, _ =>
    verifyEntryIdentity cfg store db gate_id verified_by now o.embedV o.replyV

/-! ## Concrete fixtures used by witnesses and counterexamples -/

/-- Thresholds mirroring the ordering of the face_recognition.py defaults
(0.35 and 0.30), scaled to integral rationals so that concrete runs reduce
inside the kernel. -/
def cfgEx : Config :=
  { watchlist_threshold := 35, visitor_threshold := 30,
    resident_threshold := 30 }

def metaWEx : FaceMeta :=
  { face_id := some "watchlist_w1", person_id := some "watchlist_Mallory",
    person_name := some "Mallory", person_type := some "watchlist",
    active := some true }

def metaVEx : FaceMeta :=
  { face_id := some "visitor_v1", person_id := some "visitor_CODE1",
    person_name := some "Alice", person_type := some "visitor",
    active := some true }

/-- An index holding one watchlist face (row 0) and one visitor face (row 1). -/
def storeEx : Store := { ntotal := 2, metadata := [(0, metaWEx), (1, metaVEx)] }

def aliceEx : Visitor :=
  { id := 1, full_name := "Alice", face_id := some "visitor_v1",
    status := .approved, valid_from := 0, valid_until := 100 }

/-- A database in which the watchlist face of `storeEx` is orphaned: no
watchlist person row carries its face id. -/
def dbOrphanEx : DB :=
  { visitors := [aliceEx], watchlist := [], entry_logs := [], alerts := [] }

def malloryEx : WatchlistPerson :=
  { id := 7, full_name := "Mallory", face_id := some "watchlist_w1",
    category := "theft", severity := "high", reason := "prior theft" }

/-- The same database with the watchlist person present and active. -/
def dbWatchEx : DB := { dbOrphanEx with watchlist := [malloryEx] }

/-- Oracle: both searches embed fine; the watchlist search scores row 0 at
90 and the identity search scores row 1 at 90, both above their thresholds. -/
def oracleEx : GateOracle :=
  { embedW := .ok, replyW := [(90, 0)], embedV := .ok, replyV := [(90, 1)] }

/-! ## Claim C3 -/

/-- Counterexample to claim C3 as stated: `add` on the all-zero embedding
appends a vector that does not have unit norm, because `normalize` divides
by a zero norm. -/
theorem add_face_unit_norm_cex :
    ¬ (∀ (s t : VecIndex) (emb : List ℝ), s.addSpec emb t →
        ∀ w, t.rows = s.rows ++ [w] → unitNorm w) := by
  intro hclaim
  have hnorm : normalizeSpec [(0 : ℝ)] [(0 : ℝ)] := by
    simp [normalizeSpec, sumSq]
  have h := hclaim ⟨[]⟩ ⟨[[(0 : ℝ)]]⟩ [(0 : ℝ)] ⟨[(0 : ℝ)], hnorm, rfl⟩
    [(0 : ℝ)] rfl
  have h0 : Real.sqrt (sumSq [(0 : ℝ)]) = 0 := by simp [sumSq]
  rw [unitNorm, h0] at h
  exact zero_ne_one h

/-- Claim C3 (amended): for every embedding of nonzero norm passed to the
add operation of the index, the vector actually appended is its
L2-normalized form and has unit norm; and for every query of nonzero norm,
search scores the rows by inner product with the unit-normalized query. -/
theorem add_face_stores_normalized (s t : VecIndex) (emb q scores : List ℝ)
    (hnz : sumSq emb ≠ 0) (hadd : s.addSpec emb t)
    (hq : sumSq q ≠ 0) (hsearch : t.searchScoresSpec q scores) :
    (∃ w, normalizeSpec emb w ∧ t.rows = s.rows ++ [w] ∧ unitNorm w) ∧
    (∃ qn, normalizeSpec q qn ∧ unitNorm qn ∧
      scores = t.rows.map (fun r => dot r qn)) := by
  obtain ⟨w, hw, hrows⟩ := hadd
  obtain ⟨qn, hqn, hsc⟩ := hsearch
  exact ⟨⟨w, hw, hrows, normalizeSpec_unitNorm emb w hnz hw⟩,
    ⟨qn, hqn, normalizeSpec_unitNorm q qn hq hqn, hsc⟩⟩

/-- Witness for the amended claim C3 at the one-dimensional embedding `[1]`. -/
theorem add_face_stores_normalized_wit :
    sumSq [(1 : ℝ)] ≠ 0 ∧
    VecIndex.addSpec ⟨[]⟩ [(1 : ℝ)] ⟨[[(1 : ℝ)]]⟩ ∧
    VecIndex.searchScoresSpec ⟨[[(1 : ℝ)]]⟩ [(1 : ℝ)] [(1 : ℝ)] ∧
    ((∃ w, normalizeSpec [(1 : ℝ)] w ∧
        (VecIndex.mk [[(1 : ℝ)]]).rows = (VecIndex.mk []).rows ++ [w] ∧
        unitNorm w) ∧
     (∃ qn, normalizeSpec [(1 : ℝ)] qn ∧ unitNorm qn ∧
        [(1 : ℝ)] = (VecIndex.mk [[(1 : ℝ)]]).rows.map (fun r => dot r qn))) := by
  have hnz : sumSq [(1 : ℝ)] ≠ 0 := by norm_num [sumSq]
  have hnorm : normalizeSpec [(1 : ℝ)] [(1 : ℝ)] := by
    simp [normalizeSpec, sumSq]
  have hadd : VecIndex.addSpec ⟨[]⟩ [(1 : ℝ)] ⟨[[(1 : ℝ)]]⟩ := ⟨[(1 : ℝ)], hnorm, rfl⟩
  have hsearch : VecIndex.searchScoresSpec ⟨[[(1 : ℝ)]]⟩ [(1 : ℝ)] [(1 : ℝ)] := by
    exact ⟨[(1 : ℝ)], hnorm, by simp [dot]⟩
  exact ⟨hnz, hadd, hsearch,
    add_face_stores_normalized ⟨[]⟩ ⟨[[(1 : ℝ)]]⟩ [(1 : ℝ)] [(1 : ℝ)] [(1 : ℝ)]
      hnz hadd hnz hsearch⟩

/-! ## Claim C10 -/

/-- Claim C10: `FaissStore.normalize` has no zero guard, so its output has
unit norm only when the input norm is nonzero. On the all-zero embedding it
produces all-NaN components, `add_face` stores that all-NaN row, and a
subsequent search computes a NaN score against it instead of failing. -/
theorem normalize_zero_vector_nan (normOp : List NFloat → NFloat) (n : Nat)
    (s : VecIndexF) (q : List NFloat) (hn : 0 < n)
    (h0 : normOp (List.replicate n (NFloat.val 0)) = NFloat.val 0)
    (hq : q.length = n) :
    normalizeF normOp (List.replicate n (NFloat.val 0))
      = List.replicate n NFloat.nan ∧
    (s.addFaceF normOp (List.replicate n (NFloat.val 0))).rows
      = s.rows ++ [List.replicate n NFloat.nan] ∧
    ((s.addFaceF normOp (List.replicate n (NFloat.val 0))).searchScoresF
        normOp q).getLast? = some NFloat.nan := by
  have hnorm : normalizeF normOp (List.replicate n (NFloat.val 0))
      = List.replicate n NFloat.nan := by
    unfold normalizeF
    rw [h0, List.map_replicate]
    rfl
  refine ⟨hnorm, ?_, ?_⟩
  · unfold VecIndexF.addFaceF
    rw [hnorm]
  · unfold VecIndexF.searchScoresF VecIndexF.addFaceF
    rw [hnorm]
    have hlen : (normalizeF normOp q).length = n := by
      simp [normalizeF, hq]
    have hne : normalizeF normOp q ≠ [] := by
      intro hcon
      rw [hcon] at hlen
      simp at hlen
      omega
    have hdot := dotF_replicate_nan (normalizeF normOp q) hne
    rw [hlen] at hdot
    rw [List.map_append, List.map_cons, List.map_nil, List.getLast?_concat, hdot]

/-- Witness for claim C10 at dimension two. -/
theorem normalize_zero_vector_nan_wit :
    0 < 2 ∧
    (fun (_ : List NFloat) => NFloat.val 0)
      (List.replicate 2 (NFloat.val 0)) = NFloat.val 0 ∧
    ([NFloat.val 1, NFloat.val 0] : List NFloat).length = 2 ∧
    (normalizeF (fun _ => NFloat.val 0) (List.replicate 2 (NFloat.val 0))
        = List.replicate 2 NFloat.nan ∧
      ((VecIndexF.mk []).addFaceF (fun _ => NFloat.val 0)
          (List.replicate 2 (NFloat.val 0))).rows
        = (VecIndexF.mk []).rows ++ [List.replicate 2 NFloat.nan] ∧
      (((VecIndexF.mk []).addFaceF (fun _ => NFloat.val 0)
          (List.replicate 2 (NFloat.val 0))).searchScoresF
            (fun _ => NFloat.val 0)
            [NFloat.val 1, NFloat.val 0]).getLast? = some NFloat.nan) :=
  ⟨by decide, rfl, rfl,
    normalize_zero_vector_nan (fun _ => NFloat.val 0) 2 ⟨[]⟩
      [NFloat.val 1, NFloat.val 0] (by decide) rfl rfl⟩

/-! ## Claim C8 -/

/-- Claim C8: an enrollment request whose population tag is not visitor,
resident or watchlist fails with the invalid-person-type error and leaves
the face index untouched. -/
theorem index_face_rejects_invalid_type (s : Store) (uuidHex pid ptype : String)
    (pname : Option String) (x : ExtractOutcome)
    (hptype : (["visitor", "resident", "watchlist"] : List String).contains
      ptype = false) :
    (indexFace s uuidHex pid ptype pname x).1.success = false ∧
    (indexFace s uuidHex pid ptype pname x).1.error
      = some "Indexing failed: Invalid person_type" ∧
    (indexFace s uuidHex pid ptype pname x).2 = s := by
  have h1 : ptype ≠ "visitor" ∧ ptype ≠ "resident" ∧ ptype ≠ "watchlist" := by
    refine ⟨?_, ?_, ?_⟩ <;> intro he <;> rw [he] at hptype <;>
      exact absurd hptype (by decide)
  simp [indexFace, h1.1, h1.2.1, h1.2.2]

/-- Witness for claim C8 at the unknown population tag `guest`. -/
theorem index_face_rejects_invalid_type_wit :
    (["visitor", "resident", "watchlist"] : List String).contains "guest"
      = false ∧
    ((indexFace storeEx "u1" "p1" "guest" none .noFaces).1.success = false ∧
     (indexFace storeEx "u1" "p1" "guest" none .noFaces).1.error
       = some "Indexing failed: Invalid person_type" ∧
     (indexFace storeEx "u1" "p1" "guest" none .noFaces).2 = storeEx) :=
  ⟨by decide,
    index_face_rejects_invalid_type storeEx "u1" "p1" "guest" none .noFaces
      (by decide)⟩

/-! ## Claim C6 -/

/-- A store holding exactly one enrolled face, which is then deactivated. -/
def storeC6 : Store :=
  Store.addFace { ntotal := 0, metadata := [] } "visitor_x"
    { face_id := some "visitor_x", person_id := some "p1",
      person_name := some "Eve", person_type := some "visitor",
      active := some true }

/-- Claim C6 (code bug): after the only enrolled face is deactivated, the
stats operation still reports `active_faces = 1`, because it returns
`len(self.metadata)` rather than the count of rows whose active flag is
true, which is zero here; `get_stats` republishes the same number as
`total_faces`. -/
theorem stats_active_faces_counts_inactive :
    (deleteFace storeC6 "visitor_x").1 = true ∧
    ((deleteFace storeC6 "visitor_x").2.stats).active_faces = 1 ∧
    (getStats (deleteFace storeC6 "visitor_x").2).total_faces = 1 ∧
    ((deleteFace storeC6 "visitor_x").2.metadata.countP
      (fun p => p.2.active.getD true)) = 0 ∧
    ((deleteFace storeC6 "visitor_x").2.stats).total_vectors = 1 := by
  decide

/-! ## Claim C7 -/

/-- Every failing `index_face` path leaves the store untouched. -/
theorem indexFace_fail_store (s : Store) (u pid pt : String) (pn : Option String)
    (x : ExtractOutcome)
    (hfail : (indexFace s u pid pt pn x).1.success = false) :
    (indexFace s u pid pt pn x).2 = s := by
  by_cases hc : pt = "visitor" ∨ pt = "resident" ∨ pt = "watchlist"
  · cases x <;> simp [indexFace, hc] at hfail ⊢
  · rw [not_or, not_or] at hc
    simp [indexFace, hc.1, hc.2.1, hc.2.2]

/-- Claim C7: when a visitor-creation request carries a face image and
enrollment fails, the visitor row is still created with no face reference,
creation succeeds, the enrollment failure details are surfaced in the
returned details, and the face index is untouched. -/
theorem create_visitor_survives_enroll_failure (visitors : List Visitor)
    (store : Store) (vd : VisitorCreate) (code uuidHex : String)
    (x : ExtractOutcome) (hface : vd.has_face_image = true)
    (hfail : (indexFace store uuidHex ("visitor_" ++ code) "visitor"
        (some vd.full_name) x).1.success = false) :
    ∃ v, (createVisitor visitors store vd code uuidHex x).1.1 = some v ∧
      v.face_id = none ∧
      (createVisitor visitors store vd code uuidHex x).2.1 = visitors ++ [v] ∧
      (createVisitor visitors store vd code uuidHex x).1.2.success = true ∧
      (createVisitor visitors store vd code uuidHex x).1.2.face_indexed = false ∧
      (createVisitor visitors store vd code uuidHex x).1.2.face_details
        = some (indexFace store uuidHex ("visitor_" ++ code) "visitor"
            (some vd.full_name) x).1 ∧
      (createVisitor visitors store vd code uuidHex x).2.2 = store := by
  refine ⟨_, rfl, ?_, rfl, ?_, ?_, ?_, ?_⟩
  · simp [createVisitor, hface, hfail]
  · rfl
  · simp [createVisitor, hface, hfail]
  · simp [createVisitor, hface]
  · simp [createVisitor, hface]
    exact indexFace_fail_store store uuidHex ("visitor_" ++ code) "visitor"
      (some vd.full_name) x hfail

/-- Witness for claim C7: creating visitor Bob whose face image contains no
detectable face. -/
theorem create_visitor_survives_enroll_failure_wit :
    ({ full_name := "Bob", has_face_image := true, valid_from := 0,
       valid_until := 10 } : VisitorCreate).has_face_image = true ∧
    (indexFace storeEx "u2" ("visitor_" ++ "CODE2") "visitor"
        (some "Bob") .noFaces).1.success = false ∧
    (∃ v, (createVisitor [] storeEx
        { full_name := "Bob", has_face_image := true, valid_from := 0,
          valid_until := 10 } "CODE2" "u2" .noFaces).1.1 = some v ∧
      v.face_id = none ∧
      (createVisitor [] storeEx
        { full_name := "Bob", has_face_image := true, valid_from := 0,
          valid_until := 10 } "CODE2" "u2" .noFaces).2.1 = [] ++ [v] ∧
      (createVisitor [] storeEx
        { full_name := "Bob", has_face_image := true, valid_from := 0,
          valid_until := 10 } "CODE2" "u2" .noFaces).1.2.success = true ∧
      (createVisitor [] storeEx
        { full_name := "Bob", has_face_image := true, valid_from := 0,
          valid_until := 10 } "CODE2" "u2" .noFaces).1.2.face_indexed = false ∧
      (createVisitor [] storeEx
        { full_name := "Bob", has_face_image := true, valid_from := 0,
          valid_until := 10 } "CODE2" "u2" .noFaces).1.2.face_details
        = some (indexFace storeEx "u2" ("visitor_" ++ "CODE2") "visitor"
            (some "Bob") .noFaces).1 ∧
      (createVisitor [] storeEx
        { full_name := "Bob", has_face_image := true, valid_from := 0,
          valid_until := 10 } "CODE2" "u2" .noFaces).2.2 = storeEx) :=
  ⟨rfl, by decide,
    create_visitor_survives_enroll_failure [] storeEx
      { full_name := "Bob", has_face_image := true, valid_from := 0,
        valid_until := 10 } "CODE2" "u2" .noFaces rfl (by decide)⟩

/-! ## Gate claims C1, C2, C9 -/

/-- Every path through the identity step appends exactly one entry log whose
status is the response status, never raises a watchlist alert, and leaves
the alert table untouched. -/
theorem verifyEntryIdentity_spec (cfg : Config) (store : Store) (db : DB)
    (g : String) (vb : Nat) (now : ℤ) (e : EmbedOutcome) (r : List (ℚ × Int)) :
    ∃ log, (verifyEntryIdentity cfg store db g vb now e r).2.entry_logs
        = db.entry_logs ++ [log] ∧
      log.status = (verifyEntryIdentity cfg store db g vb now e r).1.status ∧
      log.status ≠ .watchlist_alert ∧
      (verifyEntryIdentity cfg store db g vb now e r).2.alerts = db.alerts := by
  simp only [verifyEntryIdentity, gateNoMatch]
  repeat' split
  all_goals exact ⟨_, rfl, rfl, fun h => EntryStatus.noConfusion h, rfl⟩

/-- Claim C2: every gate verification run appends exactly one entry log to
the audit table before the response is returned, and the status recorded in
that log is the status reported by the response; no return path skips the
audit write. -/
theorem verify_entry_always_logs (cfg : Config) (store : Store) (db : DB)
    (g : String) (vb : Nat) (now : ℤ) (o : GateOracle) :
    ∃ log, (verifyEntry cfg store db g vb now o).2.entry_logs
        = db.entry_logs ++ [log] ∧
      log.status = (verifyEntry cfg store db g vb now o).1.status := by
  simp only [verifyEntry]
  repeat' split
  all_goals first
    | exact ⟨_, rfl, rfl⟩
    | (obtain ⟨log, h1, h2, _, _⟩ :=
        verifyEntryIdentity_spec cfg store db g vb now o.embedV o.replyV
       exact ⟨log, h1, h2⟩)

/-- Counterexample to claim C1 as stated: a capture can make the watchlist
face search report a match at or above the watchlist threshold while the
relational store holds no active watchlist person for that face id; the
decision then is not WatchlistAlert, and the run can even end Allowed. -/
theorem watchlist_preemption_cex :
    ¬ (∀ (cfg : Config) (store : Store) (db : DB) (g : String) (vb : Nat)
        (now : ℤ) (o : GateOracle),
        (searchWatchlist cfg store o.embedW o.replyW none).watchlist_match
          = true →
        (verifyEntry cfg store db g vb now o).1.status = .watchlist_alert) := by
  intro hclaim
  have h := hclaim cfgEx storeEx dbOrphanEx "MAIN_GATE" 1 50 oracleEx (by decide)
  exact absurd h (by decide)

/-- Claim C1 (amended): for every capture whose best active watchlist match
scores at or above the watchlist threshold, provided the relational store
holds an active watchlist person with the matched face id, the gate decision
is WatchlistAlert and never Allowed or Denied, even when the capture also
scores above the visitor or resident threshold. -/
theorem watchlist_preemption_with_person (cfg : Config) (store : Store)
    (db : DB) (g : String) (vb : Nat) (now : ℤ) (o : GateOracle) (m : Hit)
    (hw : (searchWatchlist cfg store o.embedW o.replyW none).watchlist_match
      = true)
    (hm : (searchWatchlist cfg store o.embedW o.replyW none).best_match
      = some m)
    (hp : (db.watchlist.find? (fun p => p.face_id == m.meta.face_id
        && p.is_active)).isSome = true) :
    (verifyEntry cfg store db g vb now o).1.status = .watchlist_alert ∧
    (verifyEntry cfg store db g vb now o).1.status ≠ .allowed ∧
    (verifyEntry cfg store db g vb now o).1.status ≠ .denied := by
  obtain ⟨person, hperson⟩ := Option.isSome_iff_exists.mp hp
  simp only [verifyEntry, hw, hm, hperson]
  refine ⟨by trivial, ?_, ?_⟩ <;> exact fun h => EntryStatus.noConfusion h

/-- Witness for the amended claim C1: the watchlist match on the capture
preempts the visitor match that also clears its threshold. -/
theorem watchlist_preemption_with_person_wit :
    (searchWatchlist cfgEx storeEx oracleEx.embedW oracleEx.replyW
      none).watchlist_match = true ∧
    (searchWatchlist cfgEx storeEx oracleEx.embedW oracleEx.replyW
      none).best_match = some { score := 90, meta := metaWEx } ∧
    (dbWatchEx.watchlist.find? (fun p =>
      p.face_id == ({ score := 90, meta := metaWEx } : Hit).meta.face_id
        && p.is_active)).isSome = true ∧
    ((verifyEntry cfgEx storeEx dbWatchEx "MAIN_GATE" 1 50 oracleEx).1.status
        = .watchlist_alert ∧
     (verifyEntry cfgEx storeEx dbWatchEx "MAIN_GATE" 1 50 oracleEx).1.status
        ≠ .allowed ∧
     (verifyEntry cfgEx storeEx dbWatchEx "MAIN_GATE" 1 50 oracleEx).1.status
        ≠ .denied) :=
  ⟨by decide, by decide, by decide,
    watchlist_preemption_with_person cfgEx storeEx dbWatchEx "MAIN_GATE" 1 50
      oracleEx { score := 90, meta := metaWEx } (by decide) (by decide)
      (by decide)⟩

/-- Claim C9: when the watchlist face search reports an active match at or
above the watchlist threshold but no active watchlist person in the
relational store carries that face id, the run creates no alert and no
watchlist audit entry, and control falls through to the visitor/resident
identity check; in particular the attempt can terminate Allowed, as the
concrete orphaned-face run shows. -/
theorem orphan_watchlist_falls_through :
    (∀ (cfg : Config) (store : Store) (db : DB) (g : String) (vb : Nat)
        (now : ℤ) (o : GateOracle) (m : Hit),
      (searchWatchlist cfg store o.embedW o.replyW none).watchlist_match
        = true →
      (searchWatchlist cfg store o.embedW o.replyW none).best_match = some m →
      db.watchlist.find? (fun p => p.face_id == m.meta.face_id && p.is_active)
        = none →
      (verifyEntry cfg store db g vb now o
          = verifyEntryIdentity cfg store db g vb now o.embedV o.replyV ∧
        (verifyEntry cfg store db g vb now o).2.alerts = db.alerts ∧
        (verifyEntry cfg store db g vb now o).1.status ≠ .watchlist_alert)) ∧
    (verifyEntry cfgEx storeEx dbOrphanEx "MAIN_GATE" 1 50 oracleEx).1.status
      = .allowed := by
  constructor
  · intro cfg store db g vb now o m hw hm hfind
    have heq : verifyEntry cfg store db g vb now o
        = verifyEntryIdentity cfg store db g vb now o.embedV o.replyV := by
      simp only [verifyEntry, hw, hm, hfind]
    obtain ⟨log, _, h2, h3, h4⟩ :=
      verifyEntryIdentity_spec cfg store db g vb now o.embedV o.replyV
    refine ⟨heq, ?_, ?_⟩
    · rw [heq]
      exact h4
    · rw [heq, ← h2]
      exact h3
  · decide

/-- Witness for claim C9 at the orphaned watchlist face fixture. -/
theorem orphan_watchlist_falls_through_wit :
    (searchWatchlist cfgEx storeEx oracleEx.embedW oracleEx.replyW
      none).watchlist_match = true ∧
    (searchWatchlist cfgEx storeEx oracleEx.embedW oracleEx.replyW
      none).best_match = some { score := 90, meta := metaWEx } ∧
    dbOrphanEx.watchlist.find? (fun p =>
      p.face_id == ({ score := 90, meta := metaWEx } : Hit).meta.face_id
        && p.is_active) = none ∧
    (verifyEntry cfgEx storeEx dbOrphanEx "MAIN_GATE" 1 50 oracleEx
        = verifyEntryIdentity cfgEx storeEx dbOrphanEx "MAIN_GATE" 1 50
            oracleEx.embedV oracleEx.replyV ∧
      (verifyEntry cfgEx storeEx dbOrphanEx "MAIN_GATE" 1 50 oracleEx).2.alerts
        = dbOrphanEx.alerts ∧
      (verifyEntry cfgEx storeEx dbOrphanEx "MAIN_GATE" 1 50
        oracleEx).1.status ≠ .watchlist_alert) :=
  ⟨by decide, by decide, by decide,
    orphan_watchlist_falls_through.1 cfgEx storeEx dbOrphanEx "MAIN_GATE" 1 50
      oracleEx { score := 90, meta := metaWEx } (by decide) (by decide)
      (by decide)⟩

/-! ## Claim C5 -/

theorem foldl_pick_mem (t : List Hit) (a : Hit) :
    t.foldl (fun acc x => if acc.score < x.score then x else acc) a ∈ a :: t := by
  induction t generalizing a with
  | nil => simp
  | cons x xs ih =>
    simp only [List.foldl_cons]
    rcases List.mem_cons.mp (ih (if a.score < x.score then x else a)) with h1 | h1
    · rw [h1]
      by_cases hc : a.score < x.score
      · simp [hc]
      · simp [hc]
    · simp [h1]

/-- The best match returned by the python max is one of the candidates. -/
theorem maxByScore_mem (l : List Hit) (b : Hit) (h : maxByScore l = some b) :
    b ∈ l := by
  cases l with
  | nil => cases h
  | cons a t =>
    simp only [maxByScore, Option.some.injEq] at h
    rw [← h]
    exact foldl_pick_mem t a

/-- Claim C5: the acceptance condition of `search_face` is the inclusive
lower bound `score >= threshold`: a candidate whose score equals the
threshold exactly is accepted as a valid match, while any candidate scoring
strictly below the threshold is never among the valid matches nor the best
match. -/
theorem threshold_inclusive_bound (cfg : Config) (s : Store)
    (reply : List (ℚ × Int)) (pts : Option (List String)) (k : Nat) (θ : ℚ)
    (h : Hit) (hmem : h ∈ candidateResults s reply pts) :
    (θ ≤ h.score →
      (searchFace cfg s .ok reply pts k (some θ)).match_found = true ∧
      h ∈ (searchFace cfg s .ok reply pts k (some θ)).matches_list) ∧
    (h.score < θ →
      ((searchFace cfg s .ok reply pts k (some θ)).match_found = true →
        h ∉ (searchFace cfg s .ok reply pts k (some θ)).matches_list) ∧
      (searchFace cfg s .ok reply pts k (some θ)).best_match ≠ some h) := by
  have hre : (candidateResults s reply pts).isEmpty = false := by
    cases hcr : candidateResults s reply pts with
    | nil => rw [hcr] at hmem; cases hmem
    | cons a t => rfl
  constructor
  · intro hge
    have hval : h ∈ (candidateResults s reply pts).filter
        (fun r => decide (θ ≤ r.score)) :=
      List.mem_filter.mpr ⟨hmem, by simpa using hge⟩
    have hve : ((candidateResults s reply pts).filter
        (fun r => decide (θ ≤ r.score))).isEmpty = false := by
      cases hcv : (candidateResults s reply pts).filter
          (fun r => decide (θ ≤ r.score)) with
      | nil => rw [hcv] at hval; cases hval
      | cons a t => rfl
    refine ⟨?_, ?_⟩ <;> simp [searchFace, resolveThreshold, hre, hve, hval]
  · intro hlt
    have hnotval : h ∉ (candidateResults s reply pts).filter
        (fun r => decide (θ ≤ r.score)) := by
      intro hcon
      have h2 := (List.mem_filter.mp hcon).2
      simp only [decide_eq_true_eq] at h2
      exact absurd h2 (not_le.mpr hlt)
    cases hve : ((candidateResults s reply pts).filter
        (fun r => decide (θ ≤ r.score))).isEmpty with
    | true =>
      constructor
      · intro hmf
        simp [searchFace, resolveThreshold, hre, hve] at hmf
      · simp [searchFace, resolveThreshold, hre, hve]
    | false =>
      constructor
      · intro _ hcon
        have : h ∈ (candidateResults s reply pts).filter
            (fun r => decide (θ ≤ r.score)) := by
          simpa [searchFace, resolveThreshold, hre, hve] using hcon
        exact hnotval this
      · intro hbm
        have hb : maxByScore ((candidateResults s reply pts).filter
            (fun r => decide (θ ≤ r.score))) = some h := by
          simpa [searchFace, resolveThreshold, hre, hve] using hbm
        exact hnotval (maxByScore_mem _ _ hb)

/-- Witness for claim C5: a candidate scoring exactly the threshold 30 is
accepted; one scoring 29 is rejected. -/
theorem threshold_inclusive_bound_wit :
    (({ score := 30, meta := metaVEx } : Hit) ∈ candidateResults storeEx
        [((30 : ℚ), 1)] (some ["visitor", "resident"]) ∧
     (30 : ℚ) ≤ ({ score := 30, meta := metaVEx } : Hit).score ∧
     ((searchFace cfgEx storeEx .ok [((30 : ℚ), 1)]
        (some ["visitor", "resident"]) 5 (some 30)).match_found = true ∧
      ({ score := 30, meta := metaVEx } : Hit) ∈ (searchFace cfgEx storeEx .ok
        [((30 : ℚ), 1)] (some ["visitor", "resident"]) 5
        (some 30)).matches_list)) ∧
    (({ score := 29, meta := metaVEx } : Hit) ∈ candidateResults storeEx
        [((29 : ℚ), 1)] (some ["visitor", "resident"]) ∧
     ({ score := 29, meta := metaVEx } : Hit).score < (30 : ℚ) ∧
     (((searchFace cfgEx storeEx .ok [((29 : ℚ), 1)]
          (some ["visitor", "resident"]) 5 (some 30)).match_found = true →
        ({ score := 29, meta := metaVEx } : Hit) ∉ (searchFace cfgEx storeEx
          .ok [((29 : ℚ), 1)] (some ["visitor", "resident"]) 5
          (some 30)).matches_list) ∧
      (searchFace cfgEx storeEx .ok [((29 : ℚ), 1)]
        (some ["visitor", "resident"]) 5 (some 30)).best_match
        ≠ some { score := 29, meta := metaVEx })) :=
  ⟨⟨by decide, by decide,
    (threshold_inclusive_bound cfgEx storeEx [((30 : ℚ), 1)]
      (some ["visitor", "resident"]) 5 30 { score := 30, meta := metaVEx }
      (by decide)).1 (by decide)⟩,
   ⟨by decide, by decide,
    (threshold_inclusive_bound cfgEx storeEx [((29 : ℚ), 1)]
      (some ["visitor", "resident"]) 5 30 { score := 29, meta := metaVEx }
      (by decide)).2 (by decide)⟩⟩

/-! ## Claim C4 -/

/-- Every search hit carries the empty metadata or a metadata entry of the
store. -/
theorem mem_store_search (s : Store) (reply : List (ℚ × Int)) (h : Hit)
    (hmem : h ∈ s.search reply) :
    h.meta = FaceMeta.empty ∨ ∃ k, (k, h.meta) ∈ s.metadata := by
  unfold Store.search at hmem
  split at hmem
  · cases hmem
  · obtain ⟨p, _, hph⟩ := List.mem_map.mp hmem
    cases hdg : dictGet s.metadata p.2 with
    | none =>
      left
      rw [← hph]
      simp [hdg]
    | some m =>
      right
      obtain ⟨q, hq, hqm⟩ := Option.map_eq_some'.mp hdg
      refine ⟨q.1, ?_⟩
      have hqmem := List.mem_of_find?_eq_some hq
      have hmeta : h.meta = q.2 := by
        rw [← hph]
        simp only [hdg, Option.getD_some]
        exact hqm.symm
      rw [hmeta]
      exact hqmem

theorem deactivateFirst_isSome (l : List (Nat × FaceMeta)) (fid : String) :
    (deactivateFirst l fid).isSome
      = l.any (fun p => p.2.face_id == some fid) := by
  induction l with
  | nil => rfl
  | cons p t ih =>
    rcases p with ⟨k, m⟩
    have hstep : deactivateFirst ((k, m) :: t) fid
        = (if m.face_id == some fid then
            some ((k, { m with active := some false }) :: t)
          else (deactivateFirst t fid).map (fun t2 => (k, m) :: t2)) := rfl
    rw [hstep]
    cases hm : m.face_id == some fid with
    | true => simp [hm]
    | false => simp [hm, ih]

/-- After `deactivateFirst` succeeds, under uniqueness of the face id every
entry still carrying that face id has been marked inactive. -/
theorem deactivateFirst_inactive (l : List (Nat × FaceMeta)) (fid : String)
    (l2 : List (Nat × FaceMeta))
    (huniq : l.countP (fun p => p.2.face_id == some fid) ≤ 1)
    (hdf : deactivateFirst l fid = some l2) :
    ∀ k m, (k, m) ∈ l2 → m.face_id = some fid → m.active = some false := by
  induction l generalizing l2 with
  | nil => cases hdf
  | cons p t ih =>
    rcases p with ⟨k0, m0⟩
    cases hm : m0.face_id == some fid with
    | true =>
      have hstep : deactivateFirst ((k0, m0) :: t) fid
          = (if m0.face_id == some fid then
            some ((k0, { m0 with active := some false }) :: t)
          else (deactivateFirst t fid).map (fun t2 => (k0, m0) :: t2)) := rfl
      rw [hstep, hm, if_pos rfl] at hdf
      have hl2 : l2 = (k0, { m0 with active := some false }) :: t :=
        (Option.some_inj.mp hdf).symm
      have ht0 : t.countP (fun p => p.2.face_id == some fid) = 0 := by
        rw [List.countP_cons, hm, if_pos rfl] at huniq
        omega
      intro k m hkm hfid
      rw [hl2] at hkm
      rcases List.mem_cons.mp hkm with hh | hh
      · rw [Prod.mk.injEq] at hh
        rw [hh.2]
      · have := List.countP_eq_zero.mp ht0 (k, m) hh
        simp only [beq_iff_eq] at this
        exact absurd hfid this
    | false =>
      have hstep : deactivateFirst ((k0, m0) :: t) fid
          = (if m0.face_id == some fid then
            some ((k0, { m0 with active := some false }) :: t)
          else (deactivateFirst t fid).map (fun t2 => (k0, m0) :: t2)) := rfl
      rw [hstep, hm, if_neg Bool.false_ne_true, Option.map_eq_some'] at hdf
      obtain ⟨t2, ht2, hl2⟩ := hdf
      have hcnt : t.countP (fun p => p.2.face_id == some fid) ≤ 1 := by
        rw [List.countP_cons, hm, if_neg Bool.false_ne_true] at huniq
        omega
      intro k m hkm hfid
      rw [← hl2] at hkm
      rcases List.mem_cons.mp hkm with hh | hh
      · rw [Prod.mk.injEq] at hh
        rw [hh.2] at hfid
        rw [hfid] at hm
        simp at hm
      · exact ih t2 hcnt ht2 k m hh hfid

/-- Valid matches returned by `search_face` come from the filtered
candidate results. -/
theorem searchFace_matches_sub (cfg : Config) (s : Store) (e : EmbedOutcome)
    (reply : List (ℚ × Int)) (pts : Option (List String)) (k : Nat)
    (θ : Option ℚ) (h : Hit)
    (hmem : h ∈ (searchFace cfg s e reply pts k θ).matches_list) :
    h ∈ candidateResults s reply pts := by
  cases e with
  | noFace => simp [searchFace] at hmem
  | noEmbedding => simp [searchFace] at hmem
  | ok =>
    simp only [searchFace] at hmem
    by_cases h1 : (candidateResults s reply pts).isEmpty = true
    · rw [if_pos h1] at hmem
      simp at hmem
    · rw [if_neg h1] at hmem
      by_cases h2 : ((candidateResults s reply pts).filter
          (fun r => decide (resolveThreshold cfg pts θ ≤ r.score))).isEmpty
          = true
      · rw [if_pos h2] at hmem
        exact hmem
      · rw [if_neg h2] at hmem
        exact (List.mem_filter.mp hmem).1

/-- The best match returned by `search_face` comes from the filtered
candidate results. -/
theorem searchFace_best_sub (cfg : Config) (s : Store) (e : EmbedOutcome)
    (reply : List (ℚ × Int)) (pts : Option (List String)) (k : Nat)
    (θ : Option ℚ) (b : Hit)
    (hb : (searchFace cfg s e reply pts k θ).best_match = some b) :
    b ∈ candidateResults s reply pts := by
  cases e with
  | noFace => simp [searchFace] at hb
  | noEmbedding => simp [searchFace] at hb
  | ok =>
    simp only [searchFace] at hb
    by_cases h1 : (candidateResults s reply pts).isEmpty = true
    · rw [if_pos h1] at hb
      simp at hb
    · rw [if_neg h1] at hb
      by_cases h2 : ((candidateResults s reply pts).filter
          (fun r => decide (resolveThreshold cfg pts θ ≤ r.score))).isEmpty
          = true
      · rw [if_pos h2] at hb
        simp at hb
      · rw [if_neg h2] at hb
        exact (List.mem_filter.mp (maxByScore_mem _ _ hb)).1

/-- Under uniqueness of the face id, no candidate surviving the active
filter after a successful deactivation still carries the deactivated id. -/
theorem deleteFace_candidate_excludes (s : Store) (fid : String)
    (huniq : s.metadata.countP (fun p => p.2.face_id == some fid) ≤ 1)
    (hfound : (deleteFace s fid).1 = true)
    (h : Hit) (reply : List (ℚ × Int)) (pts : Option (List String))
    (hmem : h ∈ candidateResults (deleteFace s fid).2 reply pts) :
    h.meta.face_id ≠ some fid := by
  intro hfid
  have hact : h.meta.active.getD true = true := (List.mem_filter.mp hmem).2
  have hsearch : h ∈ Store.search (deleteFace s fid).2 reply := by
    have h1 := (List.mem_filter.mp hmem).1
    unfold typeFilter at h1
    split at h1
    · exact (List.mem_filter.mp h1).1
    · exact h1
  rcases mem_store_search _ _ _ hsearch with he | ⟨k, hk⟩
  · rw [he] at hfid
    cases hfid
  · cases hdf : deactivateFirst s.metadata fid with
    | none =>
      have : (deleteFace s fid).1 = false := by simp [deleteFace, hdf]
      rw [this] at hfound
      cases hfound
    | some l2 =>
      have hmeta : (deleteFace s fid).2.metadata = l2 := by
        simp [deleteFace, hdf]
      rw [hmeta] at hk
      have := deactivateFirst_inactive s.metadata fid l2 huniq hdf k h.meta
        hk hfid
      rw [this] at hact
      cases hact

/-- Claim C4: `delete_face` reports whether a record with the face id was
found and leaves the row count of the flat index unchanged; once it
succeeds (and the face id names at most one record), every record with that
face id is inactive and no subsequent search returns it among the valid
matches or as the best match, so no gate decision can select it. -/
theorem deactivate_excludes_face (s : Store) (fid : String) (cfg : Config)
    (embed : EmbedOutcome) (reply : List (ℚ × Int)) (pts : Option (List String))
    (k : Nat) (θ : Option ℚ)
    (huniq : s.metadata.countP (fun p => p.2.face_id == some fid) ≤ 1) :
    (deleteFace s fid).1 = s.metadata.any (fun p => p.2.face_id == some fid) ∧
    (deleteFace s fid).2.ntotal = s.ntotal ∧
    ((deleteFace s fid).1 = true →
      ((deleteFace s fid).2.metadata.all
        (fun p => p.2.face_id != some fid || p.2.active == some false))
        = true ∧
      ((searchFace cfg (deleteFace s fid).2 embed reply pts k
          θ).matches_list.all (fun h => h.meta.face_id != some fid)) = true ∧
      ((searchFace cfg (deleteFace s fid).2 embed reply pts k
          θ).best_match.all (fun b => b.meta.face_id != some fid)) = true) := by
  refine ⟨?_, ?_, ?_⟩
  · rw [← deactivateFirst_isSome]
    cases hdf : deactivateFirst s.metadata fid <;> simp [deleteFace, hdf]
  · cases hdf : deactivateFirst s.metadata fid <;> simp [deleteFace, hdf]
  · intro hfound
    refine ⟨?_, ?_, ?_⟩
    · cases hdf : deactivateFirst s.metadata fid with
      | none =>
        have : (deleteFace s fid).1 = false := by simp [deleteFace, hdf]
        rw [this] at hfound
        cases hfound
      | some l2 =>
        have hmeta : (deleteFace s fid).2.metadata = l2 := by
          simp [deleteFace, hdf]
        rw [hmeta, List.all_eq_true]
        rintro ⟨k2, m2⟩ hm2
        by_cases hfid : m2.face_id = some fid
        · have := deactivateFirst_inactive s.metadata fid l2 huniq hdf k2 m2
            hm2 hfid
          simp [this]
        · simp [hfid]
    · rw [List.all_eq_true]
      intro h hmem
      have hcand := searchFace_matches_sub cfg (deleteFace s fid).2 embed
        reply pts k θ h hmem
      have := deleteFace_candidate_excludes s fid huniq hfound h reply pts hcand
      simpa using this
    · cases hbm : (searchFace cfg (deleteFace s fid).2 embed reply pts k
          θ).best_match with
      | none => rfl
      | some b =>
        have hcand := searchFace_best_sub cfg (deleteFace s fid).2 embed
          reply pts k θ b hbm
        have := deleteFace_candidate_excludes s fid huniq hfound b reply pts
          hcand
        simpa using this

/-- Witness for claim C4 at the two-row fixture store, deactivating the
visitor face. -/
theorem deactivate_excludes_face_wit :
    storeEx.metadata.countP
      (fun p => p.2.face_id == some "visitor_v1") ≤ 1 ∧
    ((deleteFace storeEx "visitor_v1").1
        = storeEx.metadata.any (fun p => p.2.face_id == some "visitor_v1") ∧
      (deleteFace storeEx "visitor_v1").2.ntotal = storeEx.ntotal ∧
      ((deleteFace storeEx "visitor_v1").1 = true →
        ((deleteFace storeEx "visitor_v1").2.metadata.all
          (fun p => p.2.face_id != some "visitor_v1"
            || p.2.active == some false)) = true ∧
        ((searchFace cfgEx (deleteFace storeEx "visitor_v1").2 .ok
            [((90 : ℚ), 1), ((50 : ℚ), 0)] (some ["visitor", "resident"]) 5
            none).matches_list.all
          (fun h => h.meta.face_id != some "visitor_v1")) = true ∧
        ((searchFace cfgEx (deleteFace storeEx "visitor_v1").2 .ok
            [((90 : ℚ), 1), ((50 : ℚ), 0)] (some ["visitor", "resident"]) 5
            none).best_match.all
          (fun b => b.meta.face_id != some "visitor_v1")) = true)) :=
  ⟨by decide,
    deactivate_excludes_face storeEx "visitor_v1" cfgEx .ok
      [((90 : ℚ), 1), ((50 : ℚ), 0)] (some ["visitor", "resident"]) 5 none
      (by decide)⟩

end GuardAI
